import Mathlib

/-!
# Fabriquant — Transaction Security Validation Engine, shallow embedding

This file embeds the fabriquant repository's validation layer in Lean 4.

The only executable logic present in the repository's source is the
`Guardian` facade (`src/guardian/index.ts`): it stores a `GuardianConfig`,
`getConfig` returns it, and `validate()` is an explicit placeholder that
returns `true`.  That class is embedded verbatim below (`Src` namespace).

The validation engine proper — Pattern Detector, Risk Cache, Risk Gateway
Client, Validation Policy Engine and the Guard facade — is described by the
repository's documentation and specification but has no implementation under
`src/`.  Those components are therefore modelled from the spec (each such
definition's doc comment starts with `Modelled from the spec:`); the theorems
about them verify the spec's testable properties against that model.

Numeric conventions: risk scores, thresholds and slippage are rationals
(the source's 0.0–1.0 scale); times and TTLs are natural-number milliseconds
(the configured `cacheTTL` is an integer so that a negative TTL is
representable, as §7 of the spec requires for configuration validation).
-/

/-! ## Source code under `src/`: the `Guardian` placeholder facade -/

namespace Src

/-- The `GuardianConfig` interface from `src/types` of the aegis-flow package: both fields
are optional (`maxSlippage?: number; emergencyStop?: boolean`). -/
structure GuardianConfig where
  maxSlippage : Option ℚ
  emergencyStop : Option Bool
deriving DecidableEq, Repr

/-- The `Guardian` class from `src/guardian/index.ts`: it holds the config
passed to its constructor, nothing else. -/
structure Guardian where
  config : GuardianConfig
deriving DecidableEq, Repr

/-- Constructor `new Guardian(config)` — stores `config` unchanged
(`this.config = config`), with no validation or normalization. -/
def Guardian.new (config : GuardianConfig) : Guardian := ⟨config⟩

/-- Method `getConfig()` — returns the stored configuration. -/
def Guardian.getConfig (g : Guardian) : GuardianConfig := g.config

/-- Method `validate()` — the placeholder of the source: always `true`,
ignoring the configuration entirely. -/
def Guardian.validate (_ : Guardian) : Bool := true

end Src

/-! ## Data model (spec §3) -/

/-- Modelled from the spec: warning severity levels `Critical | Warning | Alert`. -/
inductive Severity where
  | critical
  | warning
  | alert
deriving DecidableEq, Repr

/-- Modelled from the spec: the four fixed dangerous-pattern identifiers
P-101 .. P-104. -/
inductive PatternId where
  | p101
  | p102
  | p103
  | p104
deriving DecidableEq, Repr

/-- Modelled from the spec: the authority kind named by a `SetAuthority`
instruction (`MintTokens`, `FreezeAccount`, or some other authority). -/
inductive AuthorityKind where
  | mintTokens
  | freezeAccount
  | otherAuthority
deriving DecidableEq, Repr

/-- Modelled from the spec: the decoded shape of one instruction, as exposed
by the external instruction decoder the spec leaves abstract (§9):
`setAuthority kind newAuthority` (with `none` meaning the authority is
removed), `closeAccount acct`, a balance transfer out of `source` into
`dest`, or any other instruction. -/
inductive InstrKind where
  | setAuthority (authority : AuthorityKind) (newAuthority : Option String)
  | closeAccount (account : String)
  | transfer (source : String) (dest : String)
  | otherInstr
deriving DecidableEq, Repr

/-- Modelled from the spec: one account reference inside an instruction,
tagged signer / writable. -/
structure AccountMeta where
  addr : String
  signer : Bool
  writable : Bool
deriving DecidableEq, Repr

/-- Modelled from the spec: one operation within a transaction — program
identifier, decoded shape, and the ordered account list. -/
structure Instruction where
  programId : String
  kind : InstrKind
  accounts : List AccountMeta
deriving DecidableEq, Repr

/-- Modelled from the spec: transaction lifecycle status. -/
inductive TxStatus where
  | pending
  | executed
  | failed
deriving DecidableEq, Repr

/-- Modelled from the spec: privacy metadata carried by a transaction. -/
structure PrivacyMeta where
  requiresPrivacy : Bool
  compressionEnabled : Bool
deriving DecidableEq, Repr

/-- Modelled from the spec: a transaction — identifier, status, ordered
instruction list, optional asset addresses, optional privacy metadata and
the optional caller-supplied actual slippage (§4.4: the slippage check is
skipped when it is absent). -/
structure Transaction where
  id : String
  status : TxStatus
  instructions : List Instruction
  assetAddresses : List String
  privacyMetadata : Option PrivacyMeta
  actualSlippage : Option ℚ
deriving DecidableEq, Repr

/-- Modelled from the spec: a security warning — pattern identifier (absent
for synthesized risk / privacy warnings), severity, message, optional
affected account. -/
structure SecurityWarning where
  pattern : Option PatternId
  severity : Severity
  message : String
  affectedAccount : Option String
deriving DecidableEq, Repr

/-- Modelled from the spec: the result of one validation call — validity
flag, warnings in detection order, and the blocking causes (`blockedBy`),
each a pattern ID or check name. -/
structure ValidationResult where
  isValid : Bool
  warnings : List SecurityWarning
  blockedBy : List String
deriving DecidableEq, Repr

/-- Modelled from the spec: per-asset risk snapshot; every field optional —
absence means "unknown, not unsafe". -/
structure RiskMetrics where
  riskScore : Option ℚ
  complianceStatus : Option Bool
  counterpartyRisk : Option ℚ
  oracleIntegrity : Option ℚ
deriving DecidableEq, Repr

/-! ## Risk Cache (spec §4.2) -/

namespace RiskCache

/-- Modelled from the spec: one cache entry — asset address, metrics, the
creation instant and the TTL in milliseconds. -/
structure Entry where
  addr : String
  metrics : RiskMetrics
  createdAt : Nat
  ttl : Nat
deriving DecidableEq, Repr

/-- Modelled from the spec: the Risk Cache state — entries, most recent
first (a later `put` for the same address shadows the older entry). -/
abbrev Cache := List Entry

/-- Modelled from the spec: the raw store lookup (ignores expiry); returns
the most recently written entry for the address. -/
def find (c : Cache) (addr : String) : Option Entry :=
  c.find? (fun e => e.addr = addr)

/-- Modelled from the spec: `put(assetAddress, metrics, ttl)` at instant
`now` — writes a fresh entry that shadows any older one for the address. -/
def put (c : Cache) (addr : String) (m : RiskMetrics) (ttl : Nat) (now : Nat) : Cache :=
  ⟨addr, m, now, ttl⟩ :: c

/-- Modelled from the spec: `get(assetAddress)` at instant `now` — lazy
expiry: an entry with `createdAt + ttl <= now` is logically absent. -/
def get (c : Cache) (addr : String) (now : Nat) : Option RiskMetrics :=
  match find c addr with
  | none => none
  | some e => if now < e.createdAt + e.ttl then some e.metrics else none

end RiskCache

/-! ## Risk Gateway Client (spec §4.3) -/

/-- Modelled from the spec: the abstract external fetch
(`fetchRiskMetrics(assetAddress) -> RiskMetrics`, may fail with a transient
error); the engine consumes it as an oracle. -/
abbrev Fetcher := String → Except Unit RiskMetrics

namespace Pulsar

/-- Modelled from the spec: the "neutral" RiskMetrics returned under
`fallbackOnError` — all fields absent, so the asset is treated as unscored. -/
def neutralMetrics : RiskMetrics := ⟨none, none, none, none⟩

/-- Modelled from the spec: `assess(assetAddress)` — consult the Risk Cache
first; on a miss perform the external fetch, store the result with the
configured TTL and return it; on fetch failure return `neutralMetrics` when
`fallbackOnError` is configured, otherwise propagate the error.  The third
component counts external fetches performed (0 on a cache hit, 1 otherwise). -/
def assess (fetcher : Fetcher) (ttl : Nat) (fallbackOnError : Bool)
    (c : RiskCache.Cache) (addr : String) (now : Nat) :
    Except Unit (RiskMetrics × RiskCache.Cache × Nat) :=
  match RiskCache.get c addr now with
  | some m => .ok (m, c, 0)
  | none =>
    match fetcher addr with
    | .ok m => .ok (m, RiskCache.put c addr m ttl now, 1)
    | .error e => if fallbackOnError then .ok (neutralMetrics, c, 1) else .error e

/-- Modelled from the spec: `assessBatch` — assess each address in order,
threading the cache so that addresses already cache-hit are not re-fetched;
returns the per-address metrics in input order, the final cache, and the
total number of external fetches performed. -/
def assessBatch (fetcher : Fetcher) (ttl : Nat) (fallbackOnError : Bool) (now : Nat) :
    List String → RiskCache.Cache →
    Except Unit (List (String × RiskMetrics) × RiskCache.Cache × Nat)
  | [], c => .ok ([], c, 0)
  | a :: rest, c =>
    match assess fetcher ttl fallbackOnError c a now with
    | .error e => .error e
    | .ok (m, c1, n1) =>
      match assessBatch fetcher ttl fallbackOnError now rest c1 with
      | .error e => .error e
      | .ok (pairs, c2, n2) => .ok ((a, m) :: pairs, c2, n1 + n2)

end Pulsar

/-! ## Configuration (spec §3, §7) -/

/-- Modelled from the spec: risk tolerance levels. -/
inductive RiskTolerance where
  | strict
  | moderate
  | permissive
deriving DecidableEq, Repr

/-- Modelled from the spec: operation mode — `block` or `warn`. -/
inductive GuardMode where
  | block
  | warn
deriving DecidableEq, Repr

/-- Whether the mode is `warn`. -/
def GuardMode.isWarn : GuardMode → Bool
  | .block => false
  | .warn => true

/-- Modelled from the spec: a caller-supplied validation rule — named,
independently enabled, a pass/fail predicate over a transaction. -/
structure ValidationRule where
  id : String
  name : String
  enabled : Bool
  validate : Transaction → Bool

/-- Modelled from the spec: risk-gateway sub-configuration (the `pulsar`
field of GuardConfig): enable flag, risk threshold on the 0–1 scale, cache
TTL in milliseconds (an integer, so a malformed negative value is
representable), and the fetch-failure fallback flag. -/
structure PulsarConfig where
  enabled : Bool
  riskThreshold : ℚ
  cacheTTL : ℤ
  fallbackOnError : Bool

/-- Modelled from the spec: the Guard configuration snapshot. -/
structure GuardConfig where
  maxSlippage : Option ℚ
  emergencyStop : Bool
  enablePatternDetection : Bool
  riskTolerance : RiskTolerance
  mode : GuardMode
  customRules : List ValidationRule
  pulsar : PulsarConfig

/-! ## Pattern Detector (spec §4.1) -/

namespace Detector

/-- Whether an instruction has the `SetAuthority(MintTokens, None)` shape
that triggers P-101. -/
def isMintKill (i : Instruction) : Bool :=
  match i.kind with
  | .setAuthority .mintTokens none => true
  | _ => false

/-- The P-101 Mint Kill warning (Critical). -/
def warnP101 : SecurityWarning :=
  ⟨some .p101, .critical, "P-101 Mint Kill: mint authority set to none", none⟩

/-- The P-102 Freeze Kill warning (Critical). -/
def warnP102 : SecurityWarning :=
  ⟨some .p102, .critical, "P-102 Freeze Kill: freeze authority set to none", none⟩

/-- The P-103 Signer Mismatch warning (Warning), naming the new authority. -/
def warnP103 (newAuthority : String) : SecurityWarning :=
  ⟨some .p103, .warning, "P-103 Signer Mismatch: new authority is not a signer",
    some newAuthority⟩

/-- The P-104 Dangerous Close warning (Alert), naming the closed account. -/
def warnP104 (account : String) : SecurityWarning :=
  ⟨some .p104, .alert, "P-104 Dangerous Close: close without prior balance transfer",
    some account⟩

/-- Modelled from the spec: the transaction's signer set — every account
tagged as signer in any instruction. -/
def txSigners (tx : Transaction) : List String :=
  (tx.instructions.map fun i => (i.accounts.filter (·.signer)).map (·.addr)).flatten

/-- Modelled from the spec: the warnings one instruction contributes, in the
listed pattern order P-101, P-102, P-103, P-104, given the transaction's
signer set and the set of accounts a prior instruction transferred out of. -/
def instrWarnings (signers transferred : List String) (i : Instruction) :
    List SecurityWarning :=
  (match i.kind with
    | .setAuthority .mintTokens none => [warnP101]
    | _ => []) ++
  (match i.kind with
    | .setAuthority .freezeAccount none => [warnP102]
    | _ => []) ++
  (match i.kind with
    | .setAuthority _ (some newAuthority) =>
        if newAuthority ∈ signers then [] else [warnP103 newAuthority]
    | _ => []) ++
  (match i.kind with
    | .closeAccount account =>
        if account ∈ transferred then [] else [warnP104 account]
    | _ => [])

/-- Modelled from the spec: incremental prior-instruction state for P-104 —
the accounts whose balance some earlier instruction transferred out. -/
def updTransferred (transferred : List String) (i : Instruction) : List String :=
  match i.kind with
  | .transfer source _ => source :: transferred
  | _ => transferred

/-- Modelled from the spec: the single pass over the instruction list,
threading the P-104 state. -/
def detectGo (signers : List String) :
    List Instruction → List String → List SecurityWarning
  | [], _ => []
  | i :: rest, transferred =>
    instrWarnings signers transferred i ++ detectGo signers rest (updTransferred transferred i)

/-- Modelled from the spec: `detect(transaction)` — a pure, single-pass
function of the instruction list. -/
def detect (tx : Transaction) : List SecurityWarning :=
  detectGo (txSigners tx) tx.instructions []

end Detector

/-! ## Validation Policy Engine (spec §4.4) -/

namespace Policy

/-- Modelled from the spec: whether a metric's risk score exceeds the
configured threshold (an absent score never exceeds — "unknown, not
unsafe"). -/
def riskExceeds (threshold : ℚ) (m : RiskMetrics) : Bool :=
  match m.riskScore with
  | some s => threshold < s
  | none => false

/-- Modelled from the spec: the Critical warning synthesized for an asset
whose risk score exceeds the threshold, naming that asset. -/
def riskWarning (addr : String) : SecurityWarning :=
  ⟨none, .critical, "risk score exceeds configured threshold", some addr⟩

/-- Modelled from the spec: step 3 warnings — one Critical warning per
assessed asset whose risk score exceeds the threshold. -/
def riskWarnings (threshold : ℚ) (pairs : List (String × RiskMetrics)) :
    List SecurityWarning :=
  pairs.filterMap fun p =>
    if riskExceeds threshold p.2 then some (riskWarning p.1) else none

/-- Modelled from the spec: step 3 blocking causes — the check name placed
in `blockedBy` for each over-threshold asset, naming that asset. -/
def riskCauses (threshold : ℚ) (pairs : List (String × RiskMetrics)) : List String :=
  pairs.filterMap fun p =>
    if riskExceeds threshold p.2 then some ("RISK:" ++ p.1) else none

/-- Modelled from the spec: step 4 — each enabled custom rule that reports
failure is a blocking cause (binary pass/fail, no warning severity). -/
def ruleCauses (rules : List ValidationRule) (tx : Transaction) : List String :=
  rules.filterMap fun r =>
    if r.enabled && !(r.validate tx) then some r.id else none

/-- Modelled from the spec: the slippage check — invoked only when the
caller supplied actual slippage in the transaction metadata and a maximum
is configured; a violation is a blocking cause. -/
def slippageCauses (cfg : GuardConfig) (tx : Transaction) : List String :=
  match tx.actualSlippage, cfg.maxSlippage with
  | some s, some mx => if mx < s then ["SLIPPAGE"] else []
  | _, _ => []

/-- Modelled from the spec: step 5 — a Warning-severity, non-blocking
warning when privacy is required but compression is disabled. -/
def privacyWarnings (tx : Transaction) : List SecurityWarning :=
  match tx.privacyMetadata with
  | some pm =>
    if pm.requiresPrivacy && !pm.compressionEnabled then
      [⟨none, .warning, "privacy required but compression disabled", none⟩]
    else []
  | none => []

/-- The `blockedBy` name of a pattern identifier. -/
def patName : PatternId → String
  | .p101 => "P-101"
  | .p102 => "P-102"
  | .p103 => "P-103"
  | .p104 => "P-104"

/-- Modelled from the spec: step 6 — risk-tolerance filtering of one
accumulated pattern warning: `strict` blocks Critical and Warning
severities, `moderate` blocks only Critical, `permissive` blocks only
P-101/P-102. -/
def blockingPattern (tol : RiskTolerance) (w : SecurityWarning) : Option String :=
  match w.pattern with
  | none => none
  | some p =>
    match tol with
    | .strict =>
      if w.severity = .critical ∨ w.severity = .warning then some (patName p) else none
    | .moderate =>
      if w.severity = .critical then some (patName p) else none
    | .permissive =>
      if p = .p101 ∨ p = .p102 then some (patName p) else none

/-- Modelled from the spec: the pure combination of steps 2–7 once the risk
metrics for the transaction's assets are in hand: pattern warnings, risk
warnings and causes, custom-rule causes, slippage check, privacy warning,
tolerance filtering, and the final validity flag (`blockedBy` empty, or
warn mode). -/
def combineResult (tx : Transaction) (cfg : GuardConfig)
    (pairs : List (String × RiskMetrics)) : ValidationResult :=
  let patWs := if cfg.enablePatternDetection then Detector.detect tx else []
  let warnings := patWs ++ riskWarnings cfg.pulsar.riskThreshold pairs ++ privacyWarnings tx
  let blockedBy :=
    riskCauses cfg.pulsar.riskThreshold pairs
      ++ ruleCauses cfg.customRules tx
      ++ slippageCauses cfg tx
      ++ patWs.filterMap (blockingPattern cfg.riskTolerance)
  ⟨blockedBy.isEmpty || cfg.mode.isWarn, warnings, blockedBy⟩

/-- Modelled from the spec: the outcome of one `evaluate` call — the
validation result, the Risk Cache after the call, and the number of
external fetches performed during the call. -/
structure EvalOutcome where
  result : ValidationResult
  cache : RiskCache.Cache
  fetches : Nat
deriving Repr

/-- Modelled from the spec: `evaluate(transaction, config)` — step 1: if
`emergencyStop` is set the result is immediately invalid with
`blockedBy = [EMERGENCY_STOP]` and no further checks run; otherwise risk
metrics are assessed (only when risk assessment is enabled and asset
addresses are present) and combined with all synchronous checks. -/
def evaluate (fetcher : Fetcher) (tx : Transaction) (cfg : GuardConfig)
    (c : RiskCache.Cache) (now : Nat) : Except Unit EvalOutcome :=
  if cfg.emergencyStop then
    .ok ⟨⟨false, [], ["EMERGENCY_STOP"]⟩, c, 0⟩
  else
    match (if cfg.pulsar.enabled && !tx.assetAddresses.isEmpty then
        Pulsar.assessBatch fetcher cfg.pulsar.cacheTTL.toNat cfg.pulsar.fallbackOnError
          now tx.assetAddresses c
      else .ok ([], c, 0)) with
    | .error e => .error e
    | .ok (pairs, c2, n) => .ok ⟨combineResult tx cfg pairs, c2, n⟩

end Policy

/-! ## Guard facade (spec §4.5, §7) -/

/-- Modelled from the spec: configuration error kinds (§7). -/
inductive ConfigError where
  | negativeTTL
  | thresholdOutOfRange
deriving DecidableEq, Repr

/-- Modelled from the spec: eager validation of a GuardConfig — a negative
cache TTL or a risk threshold outside 0–1 is rejected, never clamped. -/
def validateConfig (cfg : GuardConfig) : Except ConfigError Unit :=
  if cfg.pulsar.cacheTTL < 0 then .error .negativeTTL
  else if cfg.pulsar.riskThreshold < 0 ∨ 1 < cfg.pulsar.riskThreshold then
    .error .thresholdOutOfRange
  else .ok ()

/-- Modelled from the spec: the Guard facade's state — the configuration
snapshot, the append-only warning history, and the risk cache it owns. -/
structure GuardState where
  config : GuardConfig
  history : List SecurityWarning
  cache : RiskCache.Cache

namespace Guard

/-- Modelled from the spec: Guard construction — the configuration is
validated eagerly; a malformed configuration is never stored. -/
def create (cfg : GuardConfig) : Except ConfigError GuardState :=
  match validateConfig cfg with
  | .error e => .error e
  | .ok _ => .ok ⟨cfg, [], []⟩

/-- Modelled from the spec: `updateConfig` — replaces the whole snapshot
after eager validation; on rejection the stored configuration is untouched. -/
def updateConfig (g : GuardState) (cfg : GuardConfig) : Except ConfigError GuardState :=
  match validateConfig cfg with
  | .error e => .error e
  | .ok _ => .ok { g with config := cfg }

/-- Modelled from the spec: `validateTransaction(tx)` — delegates to the
policy engine, then appends the returned warnings to the history; a gateway
failure propagates, leaving no ValidationResult. -/
def validateTransaction (fetcher : Fetcher) (g : GuardState) (tx : Transaction)
    (now : Nat) : Except Unit (ValidationResult × GuardState) :=
  match Policy.evaluate fetcher tx g.config g.cache now with
  | .error e => .error e
  | .ok out =>
    .ok (out.result, { g with history := g.history ++ out.result.warnings, cache := out.cache })

/-- Modelled from the spec: `validate(tx?)` — the legacy alias returning
`result.isValid` from the same `validateTransaction` computation. -/
def validate (fetcher : Fetcher) (g : GuardState) (tx : Transaction) (now : Nat) :
    Except Unit (Bool × GuardState) :=
  match validateTransaction fetcher g tx now with
  | .error e => .error e
  | .ok (r, g2) => .ok (r.isValid, g2)

end Guard

/-! ## Lemmas about the Risk Cache -/

namespace RiskCache

theorem find_put_self (c : Cache) (a : String) (m : RiskMetrics) (ttl tp : Nat) :
    find (put c a m ttl tp) a = some ⟨a, m, tp, ttl⟩ := by
  simp [find, put]

theorem get_put_self (c : Cache) (a : String) (m : RiskMetrics) (ttl tp t : Nat) :
    get (put c a m ttl tp) a t = if t < tp + ttl then some m else none := by
  simp [get, find_put_self]

theorem get_put_of_ne (c : Cache) {a b : String} (m : RiskMetrics) (ttl tp t : Nat)
    (hne : b ≠ a) : get (put c b m ttl tp) a t = get c a t := by
  simp [get, find, put, List.find?_cons, hne]

theorem get_none_of_expired (c : Cache) (a : String) (t : Nat) (e : Entry)
    (hfind : find c a = some e) (hexp : e.createdAt + e.ttl ≤ t) :
    get c a t = none := by
  simp [get, hfind, Nat.not_lt_of_le hexp]

end RiskCache

/-- C4: for every asset address, metrics value, TTL and times, `put` followed
by `get` before `createdAt + ttl` has elapsed returns the stored metrics, and
`get` at any time with `createdAt + ttl <= now` returns absent — `get` never
surfaces an expired entry, evicted or not. -/
theorem riskCache_ttl_invariant (c : RiskCache.Cache) (addr : String) (m : RiskMetrics)
    (ttl putTime t1 t2 : Nat) (h1 : t1 < putTime + ttl) (h2 : putTime + ttl ≤ t2) :
    RiskCache.get (RiskCache.put c addr m ttl putTime) addr t1 = some m
    ∧ RiskCache.get (RiskCache.put c addr m ttl putTime) addr t2 = none
    ∧ ∀ (c2 : RiskCache.Cache) (a : String) (t : Nat) (e : RiskCache.Entry),
        RiskCache.find c2 a = some e → e.createdAt + e.ttl ≤ t →
        RiskCache.get c2 a t = none := by
  refine ⟨?_, ?_, ?_⟩
  · rw [RiskCache.get_put_self, if_pos h1]
  · rw [RiskCache.get_put_self, if_neg (Nat.not_lt_of_le h2)]
  · intro c2 a t e hfind hexp
    exact RiskCache.get_none_of_expired c2 a t e hfind hexp

/-- C4 witness: the spec's own scenario — `put` with a 1000 ms TTL at time 0,
`get` at time 0 returns the metrics, `get` at time 1001 returns absent. -/
theorem riskCache_ttl_invariant_witness :
    RiskCache.get (RiskCache.put [] "asset" ⟨some 0.5, none, none, none⟩ 1000 0) "asset" 0
      = some ⟨some 0.5, none, none, none⟩
    ∧ RiskCache.get (RiskCache.put [] "asset" ⟨some 0.5, none, none, none⟩ 1000 0) "asset" 1001
      = none := by
  have h := riskCache_ttl_invariant [] "asset" ⟨some 0.5, none, none, none⟩ 1000 0 0 1001
    (by decide) (by decide)
  exact ⟨h.1, h.2.1⟩

/-- C10: constructing a `Guardian` with any `GuardianConfig` — any
`maxSlippage`, any `emergencyStop`, no range check — and calling `getConfig`
returns the configuration itself, field-for-field unchanged: the constructor
performs no validation or normalization. -/
theorem guardian_getConfig_roundtrip :
    ∀ cfg : Src.GuardianConfig, (Src.Guardian.new cfg).getConfig = cfg := by
  intro cfg
  rfl

/-! ## Emergency stop, the validate alias, and configuration validation -/

/-- C1: for every transaction, every fetcher and every configuration with the
emergency-stop flag set, `evaluate` — and hence `validateTransaction` and the
`validate` alias — returns `isValid = false` with
`blockedBy = [EMERGENCY_STOP]`, and no further checks run: no warnings are
produced, the cache is untouched, and zero external fetches are performed,
regardless of the transaction's content. -/
theorem emergency_stop_short_circuit (fetcher : Fetcher) (g : GuardState)
    (tx : Transaction) (now : Nat) (hES : g.config.emergencyStop = true) :
    Policy.evaluate fetcher tx g.config g.cache now
      = .ok ⟨⟨false, [], ["EMERGENCY_STOP"]⟩, g.cache, 0⟩
    ∧ Guard.validateTransaction fetcher g tx now
      = .ok (⟨false, [], ["EMERGENCY_STOP"]⟩, g)
    ∧ Guard.validate fetcher g tx now = .ok (false, g) := by
  have h1 : Policy.evaluate fetcher tx g.config g.cache now
      = .ok ⟨⟨false, [], ["EMERGENCY_STOP"]⟩, g.cache, 0⟩ := by
    unfold Policy.evaluate
    rw [hES]
    rfl
  have h2 : Guard.validateTransaction fetcher g tx now
      = .ok (⟨false, [], ["EMERGENCY_STOP"]⟩, g) := by
    unfold Guard.validateTransaction
    rw [h1]
    simp
  refine ⟨h1, h2, ?_⟩
  unfold Guard.validate
  rw [h2]

/-- C1 witness: a Guard whose config has the emergency stop set blocks a
transaction that would otherwise trigger P-101 and risk assessment. -/
theorem emergency_stop_short_circuit_witness :
    Guard.validate (fun _ => .error ())
      ⟨⟨none, true, true, .moderate, .block, [], ⟨true, 0.7, 1000, false⟩⟩, [], []⟩
      ⟨"tx", .pending, [⟨"tok", .setAuthority .mintTokens none, []⟩], ["A"], none, none⟩ 0
      = .ok (false, ⟨⟨none, true, true, .moderate, .block, [], ⟨true, 0.7, 1000, false⟩⟩, [], []⟩) :=
  (emergency_stop_short_circuit (fun _ => .error ())
    ⟨⟨none, true, true, .moderate, .block, [], ⟨true, 0.7, 1000, false⟩⟩, [], []⟩
    ⟨"tx", .pending, [⟨"tok", .setAuthority .mintTokens none, []⟩], ["A"], none, none⟩ 0
    rfl).2.2

/-- C6: the Guard facade's `validate` is a legacy alias for
`validateTransaction`: whenever `validateTransaction` succeeds, `validate`
returns exactly its result's `isValid` (with the same updated state), and
whenever it fails, `validate` propagates the same error — never an
independent computation. -/
theorem validate_alias_of_validateTransaction (fetcher : Fetcher) (g : GuardState)
    (tx : Transaction) (now : Nat) :
    (∀ r g2, Guard.validateTransaction fetcher g tx now = .ok (r, g2) →
      Guard.validate fetcher g tx now = .ok (r.isValid, g2))
    ∧ (∀ e, Guard.validateTransaction fetcher g tx now = .error e →
      Guard.validate fetcher g tx now = .error e) := by
  constructor
  · intro r g2 h
    unfold Guard.validate
    rw [h]
  · intro e h
    unfold Guard.validate
    rw [h]

/-- C6 witness: on a trivial transaction under a pattern-only block-mode
config, `validateTransaction` succeeds with `isValid = true` and `validate`
returns that very bit. -/
theorem validate_alias_of_validateTransaction_witness :
    Guard.validate (fun _ => .error ())
      ⟨⟨none, false, true, .moderate, .block, [], ⟨false, 0.7, 1000, false⟩⟩, [], []⟩
      ⟨"tx", .pending, [], [], none, none⟩ 0
      = .ok ((⟨true, [], []⟩ : ValidationResult).isValid,
          ⟨⟨none, false, true, .moderate, .block, [], ⟨false, 0.7, 1000, false⟩⟩, [], []⟩) :=
  (validate_alias_of_validateTransaction (fun _ => .error ())
    ⟨⟨none, false, true, .moderate, .block, [], ⟨false, 0.7, 1000, false⟩⟩, [], []⟩
    ⟨"tx", .pending, [], [], none, none⟩ 0).1
    ⟨true, [], []⟩
    ⟨⟨none, false, true, .moderate, .block, [], ⟨false, 0.7, 1000, false⟩⟩, [], []⟩
    (by with_unfolding_all rfl)

/-- Helper: `validateConfig` accepts a configuration exactly when it is well-formed:
no negative TTL, risk threshold within 0–1. -/
theorem validateConfig_ok_iff (cfg : GuardConfig) :
    validateConfig cfg = .ok () ↔
      ¬(cfg.pulsar.cacheTTL < 0 ∨ cfg.pulsar.riskThreshold < 0
        ∨ 1 < cfg.pulsar.riskThreshold) := by
  unfold validateConfig
  split_ifs with h1 h2
  · simp [h1]
  · constructor
    · intro h
      cases h
    · intro hn
      exact absurd (Or.inr h2) hn
  · constructor
    · intro _
      exact fun h => h.elim h1 h2
    · intro _
      rfl

/-- C7: a malformed GuardConfig — negative cache TTL, or risk threshold
outside 0–1 — makes both Guard construction and `updateConfig` fail eagerly
with a configuration error; conversely, whenever construction or update
succeeds, the stored configuration is the given one unchanged (never
clamped) and is well-formed. -/
theorem guard_config_rejected_eagerly (cfg : GuardConfig) :
    ((cfg.pulsar.cacheTTL < 0 ∨ cfg.pulsar.riskThreshold < 0
        ∨ 1 < cfg.pulsar.riskThreshold) →
      (∃ e, Guard.create cfg = .error e)
      ∧ ∀ g, ∃ e, Guard.updateConfig g cfg = .error e)
    ∧ (∀ g, Guard.create cfg = .ok g → g.config = cfg ∧
        ¬(cfg.pulsar.cacheTTL < 0 ∨ cfg.pulsar.riskThreshold < 0
          ∨ 1 < cfg.pulsar.riskThreshold))
    ∧ (∀ g g2, Guard.updateConfig g cfg = .ok g2 → g2.config = cfg ∧
        ¬(cfg.pulsar.cacheTTL < 0 ∨ cfg.pulsar.riskThreshold < 0
          ∨ 1 < cfg.pulsar.riskThreshold)) := by
  cases hv : validateConfig cfg with
  | ok u =>
    cases u
    have hok := (validateConfig_ok_iff cfg).mp hv
    refine ⟨fun h => absurd h hok, ?_, ?_⟩
    · intro g hg
      unfold Guard.create at hg
      rw [hv] at hg
      have := Except.ok.inj hg
      subst this
      exact ⟨rfl, hok⟩
    · intro g g2 hg
      unfold Guard.updateConfig at hg
      rw [hv] at hg
      have := Except.ok.inj hg
      subst this
      exact ⟨rfl, hok⟩
  | error e =>
    refine ⟨fun _ => ⟨⟨e, ?_⟩, fun g => ⟨e, ?_⟩⟩, ?_, ?_⟩
    · unfold Guard.create
      rw [hv]
    · unfold Guard.updateConfig
      rw [hv]
    · intro g hg
      unfold Guard.create at hg
      rw [hv] at hg
      cases hg
    · intro g g2 hg
      unfold Guard.updateConfig at hg
      rw [hv] at hg
      cases hg

/-- C7 witness: a configuration with cache TTL −1 is rejected by both
`Guard.create` and `Guard.updateConfig`. -/
theorem guard_config_rejected_eagerly_witness :
    (∃ e, Guard.create ⟨none, false, true, .moderate, .block, [], ⟨true, 0.7, -1, false⟩⟩
        = .error e)
    ∧ ∀ g, ∃ e, Guard.updateConfig g
        ⟨none, false, true, .moderate, .block, [], ⟨true, 0.7, -1, false⟩⟩ = .error e :=
  (guard_config_rejected_eagerly
    ⟨none, false, true, .moderate, .block, [], ⟨true, 0.7, -1, false⟩⟩).1
    (Or.inl (by decide))

/-! ## Pattern detector: P-101 counting -/

namespace Detector

theorem countP_instrWarnings (signers transferred : List String) (i : Instruction) :
    (instrWarnings signers transferred i).countP
        (fun w => w.pattern = some PatternId.p101)
      = if isMintKill i then 1 else 0 := by
  have h103 : ∀ x : String,
      (if x ∈ signers then ([] : List SecurityWarning) else [warnP103 x]).countP
        (fun w => w.pattern = some PatternId.p101) = 0 := by
    intro x
    split <;> simp [warnP103]
  have h104 : ∀ x : String,
      (if x ∈ transferred then ([] : List SecurityWarning) else [warnP104 x]).countP
        (fun w => w.pattern = some PatternId.p101) = 0 := by
    intro x
    split <;> simp [warnP104]
  rcases i with ⟨prog, kind, accounts⟩
  cases kind with
  | setAuthority auth newA =>
    cases auth <;> cases newA <;>
      simp [instrWarnings, isMintKill, warnP101, warnP102,
        List.countP_append, List.countP_cons, h103]
  | closeAccount a =>
    simp [instrWarnings, isMintKill, List.countP_append, h104]
  | transfer s d =>
    simp [instrWarnings, isMintKill]
  | otherInstr =>
    simp [instrWarnings, isMintKill]

theorem countP_detectGo (signers : List String) (instrs : List Instruction) :
    ∀ transferred : List String,
      (detectGo signers instrs transferred).countP
          (fun w => w.pattern = some PatternId.p101)
        = instrs.countP isMintKill := by
  induction instrs with
  | nil => intro transferred; simp [detectGo]
  | cons i rest ih =>
    intro transferred
    simp only [detectGo, List.countP_append, List.countP_cons,
      countP_instrWarnings, ih (updTransferred transferred i)]
    split <;> omega

theorem mem_instrWarnings_p101 (signers transferred : List String) (i : Instruction)
    (w : SecurityWarning) (hw : w ∈ instrWarnings signers transferred i)
    (hp : w.pattern = some PatternId.p101) : w = warnP101 := by
  rcases i with ⟨prog, kind, accounts⟩
  cases kind with
  | setAuthority auth newA =>
    cases auth <;> cases newA <;> simp [instrWarnings] at hw <;>
      first
        | exact hw
        | (obtain ⟨-, hw⟩ := hw; subst hw; simp [warnP103] at hp)
        | (subst hw; simp [warnP102] at hp)
  | closeAccount a =>
    simp [instrWarnings] at hw
    obtain ⟨-, hw⟩ := hw
    subst hw
    simp [warnP104] at hp
  | transfer s d =>
    simp [instrWarnings] at hw
  | otherInstr =>
    simp [instrWarnings] at hw

theorem mem_detectGo_p101 (signers : List String) (instrs : List Instruction) :
    ∀ (transferred : List String) (w : SecurityWarning),
      w ∈ detectGo signers instrs transferred →
      w.pattern = some PatternId.p101 → w = warnP101 := by
  induction instrs with
  | nil => intro transferred w hw; simp [detectGo] at hw
  | cons i rest ih =>
    intro transferred w hw hp
    simp [detectGo] at hw
    rcases hw with hw | hw
    · exact mem_instrWarnings_p101 signers transferred i w hw hp
    · exact ih (updTransferred transferred i) w hw hp

theorem detect_eq_of_instructions_eq (tx tx2 : Transaction)
    (h : tx.instructions = tx2.instructions) : detect tx = detect tx2 := by
  simp [detect, txSigners, h]

end Detector

/-- C5: the Pattern Detector emits exactly one P-101 warning per instruction
shaped `SetAuthority(MintTokens, None)` — the count of P-101 warnings equals
the count of such instructions, every P-101 warning is the Critical
`warnP101`, and `detect` is a pure function of the instruction list alone. -/
theorem detect_p101_exactly_once_per_mint_kill (tx : Transaction) :
    (Detector.detect tx).countP (fun w => w.pattern = some PatternId.p101)
      = tx.instructions.countP Detector.isMintKill
    ∧ (∀ w ∈ Detector.detect tx,
        w.pattern = some PatternId.p101 →
          w = Detector.warnP101 ∧ w.severity = Severity.critical)
    ∧ (∀ tx2 : Transaction, tx.instructions = tx2.instructions →
        Detector.detect tx = Detector.detect tx2) := by
  refine ⟨Detector.countP_detectGo _ _ [], ?_, fun tx2 h => Detector.detect_eq_of_instructions_eq tx tx2 h⟩
  intro w hw hp
  have hw101 := Detector.mem_detectGo_p101 (Detector.txSigners tx) tx.instructions [] w hw hp
  subst hw101
  exact ⟨rfl, rfl⟩

/-- C5 witness: a transaction with two mint-kill instructions, one freeze
kill and one unrelated instruction yields exactly two P-101 warnings. -/
theorem detect_p101_exactly_once_per_mint_kill_witness :
    (Detector.detect ⟨"tx", .pending,
        [⟨"tok", .setAuthority .mintTokens none, []⟩,
         ⟨"tok", .setAuthority .freezeAccount none, []⟩,
         ⟨"tok", .otherInstr, []⟩,
         ⟨"tok", .setAuthority .mintTokens none, []⟩], [], none, none⟩).countP
        (fun w => w.pattern = some PatternId.p101)
      = ([⟨"tok", .setAuthority .mintTokens none, []⟩,
          ⟨"tok", .setAuthority .freezeAccount none, []⟩,
          ⟨"tok", .otherInstr, []⟩,
          ⟨"tok", .setAuthority .mintTokens none, []⟩] : List Instruction).countP
          Detector.isMintKill
    ∧ ([⟨"tok", .setAuthority .mintTokens none, []⟩,
        ⟨"tok", .setAuthority .freezeAccount none, []⟩,
        ⟨"tok", .otherInstr, []⟩,
        ⟨"tok", .setAuthority .mintTokens none, []⟩] : List Instruction).countP
          Detector.isMintKill = 2 :=
  ⟨(detect_p101_exactly_once_per_mint_kill ⟨"tx", .pending,
      [⟨"tok", .setAuthority .mintTokens none, []⟩,
       ⟨"tok", .setAuthority .freezeAccount none, []⟩,
       ⟨"tok", .otherInstr, []⟩,
       ⟨"tok", .setAuthority .mintTokens none, []⟩], [], none, none⟩).1,
    by with_unfolding_all rfl⟩

/-! ## Lemmas about the Risk Gateway Client -/

namespace Pulsar

theorem assess_hit (fetcher : Fetcher) (ttl : Nat) (fb : Bool) (c : RiskCache.Cache)
    (addr : String) (now : Nat) (m : RiskMetrics)
    (h : RiskCache.get c addr now = some m) :
    assess fetcher ttl fb c addr now = .ok (m, c, 0) := by
  simp [assess, h]

theorem assess_miss_err_fallback (fetcher : Fetcher) (ttl : Nat) (c : RiskCache.Cache)
    (addr : String) (now : Nat) (h : RiskCache.get c addr now = none)
    (hf : fetcher addr = .error ()) :
    assess fetcher ttl true c addr now = .ok (neutralMetrics, c, 1) := by
  simp [assess, h, hf]

theorem assess_miss_err_propagates (fetcher : Fetcher) (ttl : Nat) (c : RiskCache.Cache)
    (addr : String) (now : Nat) (h : RiskCache.get c addr now = none)
    (hf : fetcher addr = .error ()) :
    assess fetcher ttl false c addr now = .error () := by
  simp [assess, h, hf]

theorem assess_ok_elim {fetcher : Fetcher} {ttl : Nat} {fb : Bool} {c : RiskCache.Cache}
    {y : String} {now : Nat} {m1 : RiskMetrics} {c1 : RiskCache.Cache} {n : Nat}
    (h : assess fetcher ttl fb c y now = .ok (m1, c1, n)) :
    (RiskCache.get c y now = some m1 ∧ c1 = c)
    ∨ (RiskCache.get c y now = none ∧ fetcher y = .ok m1
        ∧ c1 = RiskCache.put c y m1 ttl now)
    ∨ (RiskCache.get c y now = none ∧ fetcher y = .error ()
        ∧ fb = true ∧ m1 = neutralMetrics ∧ c1 = c) := by
  cases hy : RiskCache.get c y now with
  | some my =>
    simp only [assess, hy] at h
    simp at h
    obtain ⟨h1, h2, -⟩ := h
    exact Or.inl ⟨by rw [h1], h2.symm⟩
  | none =>
    cases hf : fetcher y with
    | ok mv =>
      simp only [assess, hy, hf] at h
      obtain ⟨h1, h2, -⟩ :
          mv = m1 ∧ RiskCache.put c y mv ttl now = c1 ∧ 1 = n := by
        simpa using h
      subst h1
      subst h2
      exact Or.inr (Or.inl ⟨rfl, rfl, rfl⟩)
    | error e =>
      cases e
      cases hfb : fb with
      | false =>
        simp only [assess, hy, hf, hfb] at h
        simp at h
      | true =>
        simp only [assess, hy, hf, hfb] at h
        obtain ⟨h1, h2, -⟩ :
            neutralMetrics = m1 ∧ c = c1 ∧ 1 = n := by
          simpa using h
        subst h1
        subst h2
        exact Or.inr (Or.inr ⟨rfl, rfl, rfl, rfl, rfl⟩)

theorem assess_preserves_some {fetcher : Fetcher} {ttl : Nat} {fb : Bool}
    {c : RiskCache.Cache} {y : String} {now : Nat} {m1 : RiskMetrics}
    {c1 : RiskCache.Cache} {n : Nat} {x : String} {m : RiskMetrics}
    (hx : RiskCache.get c x now = some m)
    (h : assess fetcher ttl fb c y now = .ok (m1, c1, n)) :
    RiskCache.get c1 x now = some m := by
  rcases assess_ok_elim h with ⟨-, hc⟩ | ⟨hy, -, hc⟩ | ⟨-, -, -, -, hc⟩
  · rw [hc]; exact hx
  · subst hc
    by_cases hxy : y = x
    · subst hxy
      rw [hy] at hx
      cases hx
    · rw [RiskCache.get_put_of_ne c m1 ttl now now hxy]
      exact hx
  · rw [hc]; exact hx

theorem assess_preserves_none_of_ne {fetcher : Fetcher} {ttl : Nat} {fb : Bool}
    {c : RiskCache.Cache} {y : String} {now : Nat} {m1 : RiskMetrics}
    {c1 : RiskCache.Cache} {n : Nat} {x : String}
    (hne : x ≠ y) (hx : RiskCache.get c x now = none)
    (h : assess fetcher ttl fb c y now = .ok (m1, c1, n)) :
    RiskCache.get c1 x now = none := by
  rcases assess_ok_elim h with ⟨-, hc⟩ | ⟨-, -, hc⟩ | ⟨-, -, -, -, hc⟩
  · rw [hc]; exact hx
  · subst hc
    rw [RiskCache.get_put_of_ne c m1 ttl now now (fun hyx => hne hyx.symm)]
    exact hx
  · rw [hc]; exact hx

theorem assessBatch_preserves_some (fetcher : Fetcher) (ttl : Nat) (fb : Bool)
    (now : Nat) (x : String) (m : RiskMetrics) :
    ∀ (addrs : List String) (c : RiskCache.Cache) pairs c2 n,
      RiskCache.get c x now = some m →
      assessBatch fetcher ttl fb now addrs c = .ok (pairs, c2, n) →
      RiskCache.get c2 x now = some m := by
  intro addrs
  induction addrs with
  | nil =>
    intro c pairs c2 n hx h
    simp only [assessBatch] at h
    simp at h
    obtain ⟨-, h2, -⟩ := h
    rw [← h2]
    exact hx
  | cons a rest ih =>
    intro c pairs c2 n hx h
    cases ha : assess fetcher ttl fb c a now with
    | error e =>
      simp only [assessBatch, ha] at h
      simp at h
    | ok t =>
      obtain ⟨m1, c1, n1⟩ := t
      cases hb : assessBatch fetcher ttl fb now rest c1 with
      | error e =>
        simp only [assessBatch, ha, hb] at h
        simp at h
      | ok t2 =>
        obtain ⟨pairs2, c3, n2⟩ := t2
        simp only [assessBatch, ha, hb] at h
        simp at h
        obtain ⟨-, h2, -⟩ := h
        rw [← h2]
        exact ih c1 pairs2 c3 n2 (assess_preserves_some hx ha) hb

theorem assessBatch_preserves_none (fetcher : Fetcher) (ttl : Nat) (fb : Bool)
    (now : Nat) (x : String) :
    ∀ (addrs : List String) (c : RiskCache.Cache) pairs c2 n,
      x ∉ addrs →
      RiskCache.get c x now = none →
      assessBatch fetcher ttl fb now addrs c = .ok (pairs, c2, n) →
      RiskCache.get c2 x now = none := by
  intro addrs
  induction addrs with
  | nil =>
    intro c pairs c2 n _ hx h
    simp only [assessBatch] at h
    simp at h
    obtain ⟨-, h2, -⟩ := h
    rw [← h2]
    exact hx
  | cons a rest ih =>
    intro c pairs c2 n hmem hx h
    cases ha : assess fetcher ttl fb c a now with
    | error e =>
      simp only [assessBatch, ha] at h
      simp at h
    | ok t =>
      obtain ⟨m1, c1, n1⟩ := t
      cases hb : assessBatch fetcher ttl fb now rest c1 with
      | error e =>
        simp only [assessBatch, ha, hb] at h
        simp at h
      | ok t2 =>
        obtain ⟨pairs2, c3, n2⟩ := t2
        simp only [assessBatch, ha, hb] at h
        simp at h
        obtain ⟨-, h2, -⟩ := h
        rw [← h2]
        have hne : x ≠ a := fun hxa => hmem (hxa ▸ List.mem_cons_self a rest)
        exact ih c1 pairs2 c3 n2 (fun hr => hmem (List.mem_cons_of_mem a hr))
          (assess_preserves_none_of_ne hne hx ha) hb

theorem assessBatch_good (fetcher : Fetcher) (ttl : Nat) (fb : Bool) (now : Nat)
    (httl : 0 < ttl) :
    ∀ (addrs : List String) (c : RiskCache.Cache) pairs c2 n,
      (∀ a ∈ addrs, ∃ mv, fetcher a = .ok mv) →
      assessBatch fetcher ttl fb now addrs c = .ok (pairs, c2, n) →
      pairs.map Prod.fst = addrs
      ∧ ∀ p ∈ pairs, RiskCache.get c2 p.1 now = some p.2 := by
  intro addrs
  induction addrs with
  | nil =>
    intro c pairs c2 n _ h
    obtain ⟨h1, -, -⟩ : ([] : List (String × RiskMetrics)) = pairs ∧ c = c2 ∧ 0 = n := by
      simpa [assessBatch] using h
    subst h1
    simp
  | cons a rest ih =>
    intro c pairs c2 n hsucc h
    cases ha : assess fetcher ttl fb c a now with
    | error e =>
      simp only [assessBatch, ha] at h
      simp at h
    | ok t =>
      obtain ⟨m1, c1, n1⟩ := t
      cases hb : assessBatch fetcher ttl fb now rest c1 with
      | error e =>
        simp only [assessBatch, ha, hb] at h
        simp at h
      | ok t2 =>
        obtain ⟨pairs2, c3, n2⟩ := t2
        obtain ⟨h1, h2, -⟩ :
            (a, m1) :: pairs2 = pairs ∧ c3 = c2 ∧ n1 + n2 = n := by
          simpa [assessBatch, ha, hb] using h
        subst h1
        subst h2
        have hget1 : RiskCache.get c1 a now = some m1 := by
          rcases assess_ok_elim ha with ⟨hg, hc⟩ | ⟨-, -, hc⟩ | ⟨-, hf, -, -, -⟩
          · rw [hc]; exact hg
          · subst hc
            rw [RiskCache.get_put_self]
            simp [httl]
          · obtain ⟨mv, hmv⟩ := hsucc a (List.mem_cons_self a rest)
            rw [hmv] at hf
            cases hf
        have hget2 : RiskCache.get c3 a now = some m1 :=
          assessBatch_preserves_some fetcher ttl fb now a m1 rest c1 pairs2 c3 n2 hget1 hb
        obtain ⟨ih1, ih2⟩ :=
          ih c1 pairs2 c3 n2 (fun x hx => hsucc x (List.mem_cons_of_mem a hx)) hb
        refine ⟨by simp [ih1], ?_⟩
        intro p hp
        rcases List.mem_cons.mp hp with hp | hp
        · subst hp
          exact hget2
        · exact ih2 p hp

theorem assessBatch_allhit (fetcher : Fetcher) (ttl : Nat) (fb : Bool) (now : Nat) :
    ∀ (pairs : List (String × RiskMetrics)) (c : RiskCache.Cache),
      (∀ p ∈ pairs, RiskCache.get c p.1 now = some p.2) →
      assessBatch fetcher ttl fb now (pairs.map Prod.fst) c = .ok (pairs, c, 0) := by
  intro pairs
  induction pairs with
  | nil =>
    intro c _
    simp [assessBatch]
  | cons p rest ih =>
    intro c hall
    obtain ⟨a, m⟩ := p
    have ha : assess fetcher ttl fb c a now = .ok (m, c, 0) :=
      assess_hit fetcher ttl fb c a now m (hall (a, m) (List.mem_cons_self _ _))
    have hb := ih c (fun q hq => hall q (List.mem_cons_of_mem _ hq))
    simp [assessBatch, ha, hb]

theorem assessBatch_mem (fetcher : Fetcher) (ttl : Nat) (fb : Bool) (now : Nat)
    (addr : String) (m : RiskMetrics) :
    ∀ (addrs : List String) (c : RiskCache.Cache) pairs c2 n,
      addr ∈ addrs →
      (RiskCache.get c addr now = none ∨ RiskCache.get c addr now = some m) →
      fetcher addr = .ok m →
      assessBatch fetcher ttl fb now addrs c = .ok (pairs, c2, n) →
      (addr, m) ∈ pairs := by
  intro addrs
  induction addrs with
  | nil =>
    intro c pairs c2 n hmem
    simp at hmem
  | cons a rest ih =>
    intro c pairs c2 n hmem hinv hf h
    cases ha : assess fetcher ttl fb c a now with
    | error e =>
      simp only [assessBatch, ha] at h
      simp at h
    | ok t =>
      obtain ⟨m1, c1, n1⟩ := t
      cases hb : assessBatch fetcher ttl fb now rest c1 with
      | error e =>
        simp only [assessBatch, ha, hb] at h
        simp at h
      | ok t2 =>
        obtain ⟨pairs2, c3, n2⟩ := t2
        obtain ⟨h1, -, -⟩ :
            (a, m1) :: pairs2 = pairs ∧ c3 = c2 ∧ n1 + n2 = n := by
          simpa [assessBatch, ha, hb] using h
        subst h1
        by_cases haddr : a = addr
        · subst haddr
          have hm1 : m1 = m := by
            rcases assess_ok_elim ha with ⟨hg, -⟩ | ⟨-, hfa, -⟩ | ⟨-, hfa, -, -, -⟩
            · rcases hinv with hinv | hinv
              · rw [hinv] at hg
                cases hg
              · rw [hinv] at hg
                exact (Option.some.inj hg).symm
            · rw [hf] at hfa
              exact (Except.ok.inj hfa).symm
            · rw [hf] at hfa
              cases hfa
          subst hm1
          exact List.mem_cons_self _ _
        · have hne : addr ≠ a := fun hx => haddr hx.symm
          have hinv1 : RiskCache.get c1 addr now = none
              ∨ RiskCache.get c1 addr now = some m := by
            rcases hinv with hinv | hinv
            · exact Or.inl (assess_preserves_none_of_ne hne hinv ha)
            · exact Or.inr (assess_preserves_some hinv ha)
          have hmem1 : addr ∈ rest := by
            rcases List.mem_cons.mp hmem with hx | hx
            · exact absurd hx.symm haddr
            · exact hx
          exact List.mem_cons_of_mem _ (ih c1 pairs2 c3 n2 hmem1 hinv1 hf hb)

theorem assessBatch_err (fetcher : Fetcher) (ttl : Nat) (now : Nat) (addr : String) :
    ∀ (addrs : List String) (c : RiskCache.Cache),
      addr ∈ addrs →
      RiskCache.get c addr now = none →
      fetcher addr = .error () →
      assessBatch fetcher ttl false now addrs c = .error () := by
  intro addrs
  induction addrs with
  | nil =>
    intro c hmem
    simp at hmem
  | cons a rest ih =>
    intro c hmem hnone hf
    by_cases haddr : a = addr
    · subst haddr
      have ha := assess_miss_err_propagates fetcher ttl c a now hnone hf
      simp [assessBatch, ha]
    · cases ha : assess fetcher ttl false c a now with
      | error e =>
        cases e
        simp [assessBatch, ha]
      | ok t =>
        obtain ⟨m1, c1, n1⟩ := t
        have hne : addr ≠ a := fun hx => haddr hx.symm
        have hmem1 : addr ∈ rest := by
          rcases List.mem_cons.mp hmem with hx | hx
          · exact absurd hx.symm haddr
          · exact hx
        have hrec := ih c1 hmem1 (assess_preserves_none_of_ne hne hnone ha) hf
        simp [assessBatch, ha, hrec]

end Pulsar

/-! ## Lemmas about the Validation Policy Engine -/

namespace Policy

theorem combineResult_warnings (tx : Transaction) (cfg : GuardConfig)
    (pairs : List (String × RiskMetrics)) :
    (combineResult tx cfg pairs).warnings =
      (if cfg.enablePatternDetection then Detector.detect tx else [])
        ++ riskWarnings cfg.pulsar.riskThreshold pairs ++ privacyWarnings tx := rfl

theorem combineResult_blockedBy (tx : Transaction) (cfg : GuardConfig)
    (pairs : List (String × RiskMetrics)) :
    (combineResult tx cfg pairs).blockedBy =
      riskCauses cfg.pulsar.riskThreshold pairs
        ++ ruleCauses cfg.customRules tx
        ++ slippageCauses cfg tx
        ++ (if cfg.enablePatternDetection then Detector.detect tx else []).filterMap
            (blockingPattern cfg.riskTolerance) := rfl

theorem combineResult_isValid (tx : Transaction) (cfg : GuardConfig)
    (pairs : List (String × RiskMetrics)) :
    (combineResult tx cfg pairs).isValid =
      ((combineResult tx cfg pairs).blockedBy.isEmpty || cfg.mode.isWarn) := rfl

theorem combineResult_mode_warnings (tx : Transaction) (cfg : GuardConfig)
    (pairs : List (String × RiskMetrics)) (m : GuardMode) :
    (combineResult tx { cfg with mode := m } pairs).warnings
      = (combineResult tx cfg pairs).warnings := rfl

theorem combineResult_mode_blockedBy (tx : Transaction) (cfg : GuardConfig)
    (pairs : List (String × RiskMetrics)) (m : GuardMode) :
    (combineResult tx { cfg with mode := m } pairs).blockedBy
      = (combineResult tx cfg pairs).blockedBy := rfl

theorem evaluate_ok_elim {fetcher : Fetcher} {tx : Transaction} {cfg : GuardConfig}
    {c : RiskCache.Cache} {now : Nat} {out : EvalOutcome}
    (hES : cfg.emergencyStop = false)
    (h : evaluate fetcher tx cfg c now = .ok out) :
    ∃ pairs n,
      (if cfg.pulsar.enabled && !tx.assetAddresses.isEmpty then
          Pulsar.assessBatch fetcher cfg.pulsar.cacheTTL.toNat
            cfg.pulsar.fallbackOnError now tx.assetAddresses c
        else .ok ([], c, 0)) = .ok (pairs, out.cache, n)
      ∧ out = ⟨combineResult tx cfg pairs, out.cache, n⟩ := by
  simp only [evaluate, hES, Bool.false_eq_true, if_false] at h
  cases hb : (if cfg.pulsar.enabled && !tx.assetAddresses.isEmpty then
      Pulsar.assessBatch fetcher cfg.pulsar.cacheTTL.toNat
        cfg.pulsar.fallbackOnError now tx.assetAddresses c
    else .ok ([], c, 0)) with
  | error e =>
    rw [hb] at h
    cases h
  | ok t =>
    obtain ⟨pairs, c2, n⟩ := t
    rw [hb] at h
    have hout := Except.ok.inj h
    refine ⟨pairs, n, ?_, ?_⟩
    · rw [← hout]
    · rw [← hout]

end Policy

/-- C3: with risk assessment enabled and the asset among the transaction's
addresses, if the metrics the engine obtains for that asset (cached, or
fetched on a miss) carry a risk score exceeding the configured threshold,
then `evaluate` synthesizes the Critical-severity warning naming that asset
and places its cause in `blockedBy` — for every risk tolerance level, since
`cfg.riskTolerance` is unconstrained here. -/
theorem risk_threshold_blocks_regardless_of_tolerance
    (fetcher : Fetcher) (tx : Transaction) (cfg : GuardConfig) (c : RiskCache.Cache)
    (now : Nat) (out : Policy.EvalOutcome) (addr : String) (m : RiskMetrics) (s : ℚ)
    (hES : cfg.emergencyStop = false)
    (hen : cfg.pulsar.enabled = true)
    (hmem : addr ∈ tx.assetAddresses)
    (hknown : RiskCache.get c addr now = none ∨ RiskCache.get c addr now = some m)
    (hf : fetcher addr = .ok m)
    (hs : m.riskScore = some s)
    (hth : cfg.pulsar.riskThreshold < s)
    (h : Policy.evaluate fetcher tx cfg c now = .ok out) :
    Policy.riskWarning addr ∈ out.result.warnings
    ∧ (Policy.riskWarning addr).severity = Severity.critical
    ∧ (Policy.riskWarning addr).affectedAccount = some addr
    ∧ ("RISK:" ++ addr) ∈ out.result.blockedBy := by
  have hne : tx.assetAddresses ≠ [] := by
    intro h0
    rw [h0] at hmem
    cases hmem
  have hguard : (cfg.pulsar.enabled && !tx.assetAddresses.isEmpty) = true := by
    simp [hen, hne]
  obtain ⟨pairs, n, hb, hout⟩ := Policy.evaluate_ok_elim hES h
  rw [if_pos hguard] at hb
  have hpmem : (addr, m) ∈ pairs :=
    Pulsar.assessBatch_mem fetcher cfg.pulsar.cacheTTL.toNat cfg.pulsar.fallbackOnError
      now addr m tx.assetAddresses c pairs out.cache n hmem hknown hf hb
  have hex : Policy.riskExceeds cfg.pulsar.riskThreshold m = true := by
    simp [Policy.riskExceeds, hs, hth]
  have hwmem : Policy.riskWarning addr
      ∈ Policy.riskWarnings cfg.pulsar.riskThreshold pairs := by
    rw [Policy.riskWarnings, List.mem_filterMap]
    exact ⟨(addr, m), hpmem, by simp [hex]⟩
  have hcmem : ("RISK:" ++ addr) ∈ Policy.riskCauses cfg.pulsar.riskThreshold pairs := by
    rw [Policy.riskCauses, List.mem_filterMap]
    exact ⟨(addr, m), hpmem, by simp [hex]⟩
  rw [hout]
  refine ⟨?_, rfl, rfl, ?_⟩
  · rw [Policy.combineResult_warnings]
    simp only [List.mem_append]
    exact Or.inl (Or.inr hwmem)
  · rw [Policy.combineResult_blockedBy]
    simp only [List.mem_append]
    exact Or.inl (Or.inl (Or.inl hcmem))

/-- C3 witness: asset "A" with risk score 0.8 against threshold 0.7 under
`permissive` tolerance and block mode is warned about and blocked. -/
theorem risk_threshold_blocks_regardless_of_tolerance_witness :
    Policy.riskWarning "A" ∈
      (⟨⟨false, [Policy.riskWarning "A"], ["RISK:" ++ "A"]⟩,
        [⟨"A", ⟨some 0.8, none, none, none⟩, 0, 1000⟩], 1⟩
        : Policy.EvalOutcome).result.warnings
    ∧ ("RISK:" ++ "A") ∈
      (⟨⟨false, [Policy.riskWarning "A"], ["RISK:" ++ "A"]⟩,
        [⟨"A", ⟨some 0.8, none, none, none⟩, 0, 1000⟩], 1⟩
        : Policy.EvalOutcome).result.blockedBy := by
  have h := risk_threshold_blocks_regardless_of_tolerance
    (fun _ => .ok ⟨some 0.8, none, none, none⟩)
    ⟨"t", .pending, [], ["A"], none, none⟩
    ⟨none, false, true, .permissive, .block, [], ⟨true, 0.7, 1000, false⟩⟩
    [] 0
    ⟨⟨false, [Policy.riskWarning "A"], ["RISK:" ++ "A"]⟩,
      [⟨"A", ⟨some 0.8, none, none, none⟩, 0, 1000⟩], 1⟩
    "A" ⟨some 0.8, none, none, none⟩ 0.8
    rfl rfl (by decide) (Or.inl rfl) rfl rfl
    (by with_unfolding_all decide) (by with_unfolding_all rfl)
  exact ⟨h.1, h.2.2.2⟩

theorem evaluate_stable (fetcher : Fetcher) (tx : Transaction) (cfg : GuardConfig)
    (c : RiskCache.Cache) (now : Nat) (out : Policy.EvalOutcome)
    (httl : 0 < cfg.pulsar.cacheTTL)
    (hsucc : ∀ a ∈ tx.assetAddresses, ∃ mv, fetcher a = .ok mv)
    (h : Policy.evaluate fetcher tx cfg c now = .ok out) :
    Policy.evaluate fetcher tx cfg out.cache now = .ok ⟨out.result, out.cache, 0⟩ := by
  cases hE : cfg.emergencyStop with
  | true =>
    unfold Policy.evaluate at h ⊢
    rw [if_pos hE] at h ⊢
    have hout := Except.ok.inj h
    rw [← hout]
  | false =>
    obtain ⟨pairs, n, hb, hout⟩ := Policy.evaluate_ok_elim hE h
    have hres : out.result = Policy.combineResult tx cfg pairs := by rw [hout]
    by_cases hguard : (cfg.pulsar.enabled && !tx.assetAddresses.isEmpty) = true
    · rw [if_pos hguard] at hb
      have httlN : 0 < cfg.pulsar.cacheTTL.toNat := by omega
      obtain ⟨hmap, hcached⟩ := Pulsar.assessBatch_good fetcher
        cfg.pulsar.cacheTTL.toNat cfg.pulsar.fallbackOnError now httlN
        tx.assetAddresses c pairs out.cache n hsucc hb
      have hrun2 : Pulsar.assessBatch fetcher cfg.pulsar.cacheTTL.toNat
          cfg.pulsar.fallbackOnError now tx.assetAddresses out.cache
          = .ok (pairs, out.cache, 0) := by
        rw [← hmap]
        exact Pulsar.assessBatch_allhit fetcher cfg.pulsar.cacheTTL.toNat
          cfg.pulsar.fallbackOnError now pairs out.cache hcached
      simp only [Policy.evaluate, hE, Bool.false_eq_true, if_false,
        if_pos hguard, hrun2, hres]
    · obtain ⟨hp, hc, -⟩ :
          ([] : List (String × RiskMetrics)) = pairs ∧ c = out.cache ∧ 0 = n := by
        rw [if_neg hguard] at hb
        simpa using hb
      subst hp
      simp only [Policy.evaluate, hE, Bool.false_eq_true, if_false,
        if_neg hguard, hres]

/-- C9 (amended): calling `validateTransaction` twice with the transaction,
configuration and clock unchanged — given a positive cache TTL and
successful fetches — yields the very same ValidationResult (hence
content-equal `warnings` and `blockedBy`), and the second call performs zero
external fetches: every asset is served from the cache the first call
populated. -/
theorem validateTransaction_idempotent_and_cached
    (fetcher : Fetcher) (g : GuardState) (tx : Transaction) (now : Nat)
    (r1 : ValidationResult) (g1 : GuardState)
    (httl : 0 < g.config.pulsar.cacheTTL)
    (hsucc : ∀ a ∈ tx.assetAddresses, ∃ mv, fetcher a = .ok mv)
    (h : Guard.validateTransaction fetcher g tx now = .ok (r1, g1)) :
    Policy.evaluate fetcher tx g1.config g1.cache now = .ok ⟨r1, g1.cache, 0⟩
    ∧ Guard.validateTransaction fetcher g1 tx now
        = .ok (r1, ⟨g1.config, g1.history ++ r1.warnings, g1.cache⟩) := by
  cases hev : Policy.evaluate fetcher tx g.config g.cache now with
  | error e =>
    simp only [Guard.validateTransaction, hev] at h
    simp at h
  | ok out =>
    simp only [Guard.validateTransaction, hev] at h
    obtain ⟨hr, hg⟩ : out.result = r1
        ∧ (⟨g.config, g.history ++ out.result.warnings, out.cache⟩ : GuardState) = g1 := by
      simpa using h
    have hcfg : g1.config = g.config := by rw [← hg]
    have hcache : g1.cache = out.cache := by rw [← hg]
    have hstable := evaluate_stable fetcher tx g.config g.cache now out httl hsucc hev
    have h2 : Policy.evaluate fetcher tx g1.config g1.cache now = .ok ⟨r1, g1.cache, 0⟩ := by
      rw [hcfg, hcache, ← hr]
      exact hstable
    refine ⟨h2, ?_⟩
    simp only [Guard.validateTransaction, h2]

/-- C9 counterexample to the claim as stated: a transaction referencing two
distinct assets against an empty cache performs two external fetches on the
first call (and zero on the second) — more than the claimed "at most one
external risk fetch across the two calls". -/
theorem validateTransaction_single_fetch_counterexample :
    Policy.evaluate (fun _ => .ok ⟨none, none, none, none⟩)
        ⟨"t", .pending, [], ["A", "B"], none, none⟩
        ⟨none, false, true, .moderate, .block, [], ⟨true, 0.7, 1000, false⟩⟩ [] 0
      = .ok ⟨⟨true, [], []⟩,
          [⟨"B", ⟨none, none, none, none⟩, 0, 1000⟩,
           ⟨"A", ⟨none, none, none, none⟩, 0, 1000⟩], 2⟩
    ∧ Policy.evaluate (fun _ => .ok ⟨none, none, none, none⟩)
        ⟨"t", .pending, [], ["A", "B"], none, none⟩
        ⟨none, false, true, .moderate, .block, [], ⟨true, 0.7, 1000, false⟩⟩
        [⟨"B", ⟨none, none, none, none⟩, 0, 1000⟩,
         ⟨"A", ⟨none, none, none, none⟩, 0, 1000⟩] 0
      = .ok ⟨⟨true, [], []⟩,
          [⟨"B", ⟨none, none, none, none⟩, 0, 1000⟩,
           ⟨"A", ⟨none, none, none, none⟩, 0, 1000⟩], 0⟩
    ∧ ¬(2 + 0 ≤ 1) :=
  ⟨by with_unfolding_all rfl, by with_unfolding_all rfl, by decide⟩

/-- C9 witness: a one-asset transaction — the first call fetches and caches
"A", the second call is served wholly from the cache with the identical
result and zero fetches. -/
theorem validateTransaction_idempotent_and_cached_witness :
    Policy.evaluate (fun _ => .ok ⟨none, none, none, none⟩)
        ⟨"t", .pending, [], ["A"], none, none⟩
        (⟨⟨none, false, true, .moderate, .block, [], ⟨true, 0.7, 1000, false⟩⟩, [],
          [⟨"A", ⟨none, none, none, none⟩, 0, 1000⟩]⟩ : GuardState).config
        (⟨⟨none, false, true, .moderate, .block, [], ⟨true, 0.7, 1000, false⟩⟩, [],
          [⟨"A", ⟨none, none, none, none⟩, 0, 1000⟩]⟩ : GuardState).cache 0
      = .ok ⟨⟨true, [], []⟩,
          (⟨⟨none, false, true, .moderate, .block, [], ⟨true, 0.7, 1000, false⟩⟩, [],
            [⟨"A", ⟨none, none, none, none⟩, 0, 1000⟩]⟩ : GuardState).cache, 0⟩
    ∧ Guard.validateTransaction (fun _ => .ok ⟨none, none, none, none⟩)
        ⟨⟨none, false, true, .moderate, .block, [], ⟨true, 0.7, 1000, false⟩⟩, [],
          [⟨"A", ⟨none, none, none, none⟩, 0, 1000⟩]⟩
        ⟨"t", .pending, [], ["A"], none, none⟩ 0
      = .ok (⟨true, [], []⟩,
          ⟨(⟨⟨none, false, true, .moderate, .block, [], ⟨true, 0.7, 1000, false⟩⟩, [],
              [⟨"A", ⟨none, none, none, none⟩, 0, 1000⟩]⟩ : GuardState).config,
            (⟨⟨none, false, true, .moderate, .block, [], ⟨true, 0.7, 1000, false⟩⟩, [],
              [⟨"A", ⟨none, none, none, none⟩, 0, 1000⟩]⟩ : GuardState).history
              ++ (⟨true, [], []⟩ : ValidationResult).warnings,
            (⟨⟨none, false, true, .moderate, .block, [], ⟨true, 0.7, 1000, false⟩⟩, [],
              [⟨"A", ⟨none, none, none, none⟩, 0, 1000⟩]⟩ : GuardState).cache⟩) :=
  validateTransaction_idempotent_and_cached
    (fun _ => .ok ⟨none, none, none, none⟩)
    ⟨⟨none, false, true, .moderate, .block, [], ⟨true, 0.7, 1000, false⟩⟩, [], []⟩
    ⟨"t", .pending, [], ["A"], none, none⟩ 0
    ⟨true, [], []⟩
    ⟨⟨none, false, true, .moderate, .block, [], ⟨true, 0.7, 1000, false⟩⟩, [],
      [⟨"A", ⟨none, none, none, none⟩, 0, 1000⟩]⟩
    (by decide)
    (fun a _ => ⟨⟨none, none, none, none⟩, rfl⟩)
    (by with_unfolding_all rfl)

/-- C2 (amended): warnings and blockedBy are identical across modes, and the
validity formula is `isValid = (blockedBy is empty) OR mode = warn` — not
AND with `mode = block` — except under emergency stop, where `isValid` is
false in both modes. -/
theorem mode_semantics_amended
    (fetcher : Fetcher) (tx : Transaction) (cfg : GuardConfig) (c : RiskCache.Cache)
    (now : Nat) (m1 m2 : GuardMode) (out1 out2 : Policy.EvalOutcome)
    (h1 : Policy.evaluate fetcher tx { cfg with mode := m1 } c now = .ok out1)
    (h2 : Policy.evaluate fetcher tx { cfg with mode := m2 } c now = .ok out2) :
    out1.result.warnings = out2.result.warnings
    ∧ out1.result.blockedBy = out2.result.blockedBy
    ∧ (cfg.emergencyStop = false →
        out1.result.isValid = (out1.result.blockedBy.isEmpty || m1.isWarn)
        ∧ out2.result.isValid = (out2.result.blockedBy.isEmpty || m2.isWarn))
    ∧ (cfg.emergencyStop = true →
        out1.result.isValid = false ∧ out2.result.isValid = false) := by
  cases hE : cfg.emergencyStop with
  | true =>
    have hE1 : ({ cfg with mode := m1 } : GuardConfig).emergencyStop = true := hE
    have hE2 : ({ cfg with mode := m2 } : GuardConfig).emergencyStop = true := hE
    unfold Policy.evaluate at h1 h2
    rw [if_pos hE1] at h1
    rw [if_pos hE2] at h2
    rw [← Except.ok.inj h1, ← Except.ok.inj h2]
    refine ⟨rfl, rfl, ?_, fun _ => ⟨rfl, rfl⟩⟩
    intro hcontra
    cases hcontra
  | false =>
    have hE1 : ({ cfg with mode := m1 } : GuardConfig).emergencyStop = false := hE
    have hE2 : ({ cfg with mode := m2 } : GuardConfig).emergencyStop = false := hE
    obtain ⟨pairs1, n1, hb1, hout1⟩ := Policy.evaluate_ok_elim hE1 h1
    obtain ⟨pairs2, n2, hb2, hout2⟩ := Policy.evaluate_ok_elim hE2 h2
    dsimp only at hb1 hb2
    rw [hb1] at hb2
    obtain ⟨hp, -, -⟩ : pairs1 = pairs2 ∧ out1.cache = out2.cache ∧ n1 = n2 := by
      simpa using hb2
    subst hp
    have hw1 : out1.result.warnings
        = (Policy.combineResult tx cfg pairs1).warnings := by
      rw [hout1]
      exact Policy.combineResult_mode_warnings tx cfg pairs1 m1
    have hw2 : out2.result.warnings
        = (Policy.combineResult tx cfg pairs1).warnings := by
      rw [hout2]
      exact Policy.combineResult_mode_warnings tx cfg pairs1 m2
    have hbk1 : out1.result.blockedBy
        = (Policy.combineResult tx cfg pairs1).blockedBy := by
      rw [hout1]
      exact Policy.combineResult_mode_blockedBy tx cfg pairs1 m1
    have hbk2 : out2.result.blockedBy
        = (Policy.combineResult tx cfg pairs1).blockedBy := by
      rw [hout2]
      exact Policy.combineResult_mode_blockedBy tx cfg pairs1 m2
    refine ⟨by rw [hw1, hw2], by rw [hbk1, hbk2], fun _ => ⟨?_, ?_⟩, ?_⟩
    · rw [hout1]
      rw [Policy.combineResult_isValid tx { cfg with mode := m1 } pairs1]
    · rw [hout2]
      rw [Policy.combineResult_isValid tx { cfg with mode := m2 } pairs1]
    · intro hcontra
      cases hcontra

/-- C2 counterexample to the claim as stated: (a) a trivial transaction in
warn mode yields `isValid = true` with empty `blockedBy`, while the claimed
formula `(blockedBy is empty) AND mode = block` evaluates to false there;
(b) with emergency stop set — identical blocking cause `EMERGENCY_STOP` in
both modes — warn mode yields `isValid = false`, not the claimed true. -/
theorem mode_semantics_counterexample :
    Policy.evaluate (fun _ => .error ())
        ⟨"t", .pending, [], [], none, none⟩
        ⟨none, false, true, .moderate, .warn, [], ⟨false, 0.7, 1000, false⟩⟩ [] 0
      = .ok ⟨⟨true, [], []⟩, [], 0⟩
    ∧ ((([] : List String).isEmpty && decide (GuardMode.warn = GuardMode.block)) = false)
    ∧ ((⟨true, [], []⟩ : ValidationResult).isValid = true)
    ∧ Policy.evaluate (fun _ => .error ())
        ⟨"t", .pending, [], [], none, none⟩
        ⟨none, true, true, .moderate, .warn, [], ⟨false, 0.7, 1000, false⟩⟩ [] 0
      = .ok ⟨⟨false, [], ["EMERGENCY_STOP"]⟩, [], 0⟩
    ∧ Policy.evaluate (fun _ => .error ())
        ⟨"t", .pending, [], [], none, none⟩
        ⟨none, true, true, .moderate, .block, [], ⟨false, 0.7, 1000, false⟩⟩ [] 0
      = .ok ⟨⟨false, [], ["EMERGENCY_STOP"]⟩, [], 0⟩ :=
  ⟨by with_unfolding_all rfl, by decide, rfl,
    by with_unfolding_all rfl, by with_unfolding_all rfl⟩

/-- C2 witness: a mint-kill transaction under block vs warn mode — identical
warnings and blockedBy `[P-101]`, `isValid` false under block and true under
warn, matching the amended formula. -/
theorem mode_semantics_amended_witness :
    (⟨⟨false, [Detector.warnP101], ["P-101"]⟩, [], 0⟩
        : Policy.EvalOutcome).result.warnings
      = (⟨⟨true, [Detector.warnP101], ["P-101"]⟩, [], 0⟩
        : Policy.EvalOutcome).result.warnings
    ∧ (⟨⟨false, [Detector.warnP101], ["P-101"]⟩, [], 0⟩
        : Policy.EvalOutcome).result.blockedBy
      = (⟨⟨true, [Detector.warnP101], ["P-101"]⟩, [], 0⟩
        : Policy.EvalOutcome).result.blockedBy
    ∧ (⟨⟨false, [Detector.warnP101], ["P-101"]⟩, [], 0⟩
        : Policy.EvalOutcome).result.isValid
      = ((["P-101"] : List String).isEmpty || GuardMode.block.isWarn)
    ∧ (⟨⟨true, [Detector.warnP101], ["P-101"]⟩, [], 0⟩
        : Policy.EvalOutcome).result.isValid
      = ((["P-101"] : List String).isEmpty || GuardMode.warn.isWarn) := by
  have h := mode_semantics_amended (fun _ => .error ())
    ⟨"t", .pending, [⟨"tok", .setAuthority .mintTokens none, []⟩], [], none, none⟩
    ⟨none, false, true, .moderate, .block, [], ⟨false, 0.7, 1000, false⟩⟩
    [] 0 GuardMode.block GuardMode.warn
    ⟨⟨false, [Detector.warnP101], ["P-101"]⟩, [], 0⟩
    ⟨⟨true, [Detector.warnP101], ["P-101"]⟩, [], 0⟩
    (by with_unfolding_all rfl) (by with_unfolding_all rfl)
  exact ⟨h.1, h.2.1, (h.2.2.1 rfl).1, (h.2.2.1 rfl).2⟩

/-- C8: when the external risk fetch for an (uncached) asset fails: with
`fallbackOnError`, `assess` returns the neutral RiskMetrics — all fields
absent, never exceeding any threshold, so the asset is unscored rather than
blocked; without it, the failure propagates out of `validateTransaction`,
which returns an error instead of any ValidationResult — the transaction is
neither validated-true nor validated-false. -/
theorem gateway_failure_fallback_or_propagates
    (fetcher : Fetcher) (g : GuardState) (tx : Transaction) (addr : String)
    (now ttl : Nat)
    (hget : RiskCache.get g.cache addr now = none)
    (hf : fetcher addr = .error ())
    (hmem : addr ∈ tx.assetAddresses)
    (hES : g.config.emergencyStop = false)
    (hen : g.config.pulsar.enabled = true) :
    Pulsar.assess fetcher ttl true g.cache addr now
      = .ok (Pulsar.neutralMetrics, g.cache, 1)
    ∧ Pulsar.neutralMetrics = ⟨none, none, none, none⟩
    ∧ (∀ q : ℚ, Policy.riskExceeds q Pulsar.neutralMetrics = false)
    ∧ (g.config.pulsar.fallbackOnError = false →
        Guard.validateTransaction fetcher g tx now = .error ()) := by
  refine ⟨Pulsar.assess_miss_err_fallback fetcher ttl g.cache addr now hget hf,
    rfl, fun q => rfl, ?_⟩
  intro hfb
  have hne : tx.assetAddresses ≠ [] := by
    intro h0
    rw [h0] at hmem
    cases hmem
  have hguard : (g.config.pulsar.enabled && !tx.assetAddresses.isEmpty) = true := by
    simp [hen, hne]
  have hbatch := Pulsar.assessBatch_err fetcher g.config.pulsar.cacheTTL.toNat now addr
    tx.assetAddresses g.cache hmem hget hf
  have hev : Policy.evaluate fetcher tx g.config g.cache now = .error () := by
    simp only [Policy.evaluate, hES, Bool.false_eq_true, if_false, if_pos hguard,
      hfb, hbatch]
  simp only [Guard.validateTransaction, hev]

/-- C8 witness: with every fetch failing, `assess` under fallback returns the
neutral metrics for the uncached asset "A", while the no-fallback Guard's
`validateTransaction` on a transaction referencing "A" propagates the error. -/
theorem gateway_failure_fallback_or_propagates_witness :
    Pulsar.assess (fun _ => .error ()) 5 true [] "A" 0
      = .ok (Pulsar.neutralMetrics, [], 1)
    ∧ Guard.validateTransaction (fun _ => .error ())
        ⟨⟨none, false, true, .moderate, .block, [], ⟨true, 0.7, 1000, false⟩⟩, [], []⟩
        ⟨"t", .pending, [], ["A"], none, none⟩ 0
      = .error () := by
  have h := gateway_failure_fallback_or_propagates (fun _ => .error ())
    ⟨⟨none, false, true, .moderate, .block, [], ⟨true, 0.7, 1000, false⟩⟩, [], []⟩
    ⟨"t", .pending, [], ["A"], none, none⟩ "A" 0 5
    rfl rfl (by simp) rfl rfl
  exact ⟨h.1, h.2.2.2 rfl⟩
